import Mathlib

/-!
Verification of the session/auth-gating core and the resilient API-call
wrapper of the `la-bookings-admin-panel` front-end.

The definitions below are a shallow embedding of the TypeScript source:

* `withRetry`            — the retry helper of `services/api.ts`
* the response interceptor of the axios instance (`interceptError`)
* `authService.login`    — cookie-writing credential exchange wrapper
* `AuthProvider.login`, `AuthProvider.loadUser` — the auth context state
  transitions (session population at login, the startup effect)
* `ProtectedRoute.render` / `ProtectedRoute.redirects` — the `withAuth`
  route guard
* `NewBookingPage.errorToast` — the message surfaced when booking
  creation fails
* `ProfilePage.handleDeleteUser` — the admin user-deletion guard

JavaScript `Promise` results are modelled with `Except`, thrown values
with the `ApiError` type, JS truthiness of strings by comparison with
the empty string, durations in milliseconds by `ℚ` (the source computes
`delay * 1.5`, exact in binary floating point for the values reached).
-/

/-- An HTTP response as the error-handling code observes it: the status
and the (optional) `data.message` field of the JSON body. -/
structure HttpResponse where
  status : Nat
  message : Option String
deriving DecidableEq, Repr

/-- A value thrown by an API call: an axios error that either carries a
response or not (`axios none` is a transport/network failure where no
response was received), or any other thrown value (`other`), for which
`axios.isAxiosError` is false. -/
inductive ApiError where
  | axios (response : Option HttpResponse)
  | other
deriving DecidableEq, Repr

/-- `axios.isAxiosError(error)` of the source. -/
def ApiError.isAxiosError : ApiError → Bool
  | .axios _ => true
  | .other => false

/-- `error.response` of the source (`none` when no response arrived). -/
def ApiError.response : ApiError → Option HttpResponse
  | .axios r => r
  | .other => none

/-- The guard of `withRetry` (services/api.ts lines 135-137):
`!axios.isAxiosError(error) || (error.response && error.response.status
!== 500 && error.response)` — the error is re-thrown at once exactly
when it is not an axios error, or it carries a response whose status is
not 500. -/
def shouldRethrowImmediately (e : ApiError) : Bool :=
  !e.isAxiosError ||
    (match e.response with
     | some r => r.status != 500
     | none => false)

/-- The observable behaviour of one `withRetry` run: the value returned
or error thrown, the list of back-off delays slept (in order), and how
many times the wrapped `apiCall` was invoked. -/
structure RetryTrace (α : Type) where
  result : Except ApiError α
  delays : List ℚ
  attempts : Nat
deriving Repr

/-- `withRetry(apiCall, retries = 2, delay = 1000)` of services/api.ts.

The wrapped call is modelled as a function `call` from the attempt
index (`first` for the present invocation, `first + 1` for the
recursive one) to the outcome of that attempt.  The JS
`if (retries <= 0) throw error` is the `0` case of `retries : ℕ`;
`delay * 1.5` becomes `delay * (3 / 2)` over `ℚ`. -/
def withRetry {α : Type} (call : Nat → Except ApiError α)
    (first retries : Nat) (delay : ℚ) : RetryTrace α :=
  match call first with
  | .ok v => ⟨.ok v, [], 1⟩
  | .error e =>
    match retries with
    | 0 => ⟨.error e, [], 1⟩
    | r + 1 =>
      if shouldRethrowImmediately e then
        ⟨.error e, [], 1⟩
      else
        let t := withRetry call (first + 1) r (delay * (3 / 2))
        ⟨t.result, delay :: t.delays, t.attempts + 1⟩

/-- `withRetry` with the source's default arguments (`retries = 2`,
`delay = 1000`), as every service façade in services/api.ts uses it. -/
def withRetryDefault {α : Type} (call : Nat → Except ApiError α) : RetryTrace α :=
  withRetry call 0 2 1000


/-- A cookie as written by `Cookies.set('auth_token', token, { expires: 30 })`:
the token string together with the expiry (in days) it was stored with. -/
structure StoredToken where
  value : String
  expiresDays : Nat
deriving DecidableEq, Repr

/-- `window.location.pathname.includes('/login') ||
window.location.pathname.includes('/register')` — whether the current
location already is an auth page (substring check, as in the source). -/
def isAuthPath (pathname : String) : Bool :=
  decide ("/login".toList <:+: pathname.toList) ||
    decide ("/register".toList <:+: pathname.toList)

/-- The browser-side state the axios response interceptor acts on: the
stored `auth_token` cookie, the current pathname, a counter of
`Cookies.remove('auth_token')` calls, and the list of forced
navigations (`window.location.href = ...` targets) in order. -/
structure GwState where
  token : Option StoredToken
  pathname : String
  tokenClears : Nat
  navigations : List String
deriving DecidableEq, Repr

/-- The error branch of `api.interceptors.response.use` (services/api.ts
lines 27-64).  A network error (no response) only toasts; a 401 clears
the stored token and, when the pathname is not already a login/register
page, force-navigates to `/login`; a 500 only toasts.  The
`!originalRequest._retry` conjunct of the 401 guard is always true in
this repository because nothing ever sets `_retry`, and
`typeof window !== 'undefined'` holds in the browser environment
modelled here.  The interceptor always re-rejects the same error. -/
def interceptError (st : GwState) (e : ApiError) : GwState :=
  match e with
  | .axios (some r) =>
    if r.status = 401 then
      let cleared := { st with token := none, tokenClears := st.tokenClears + 1 }
      if isAuthPath st.pathname then cleared
      else { cleared with navigations := cleared.navigations ++ ["/login"] }
    else st
  | _ => st

/-- `withRetry` around an `api` call, with the response interceptor's
side effects threaded through: every failed attempt first runs
`interceptError` on the browser state (the interceptor re-rejects the
same error, which `withRetry` then examines). -/
def gatewayRun {α : Type} (call : Nat → Except ApiError α) (st : GwState)
    (first retries : Nat) (delay : ℚ) : GwState × RetryTrace α :=
  match call first with
  | .ok v => (st, ⟨.ok v, [], 1⟩)
  | .error e =>
    let st1 := interceptError st e
    match retries with
    | 0 => (st1, ⟨.error e, [], 1⟩)
    | r + 1 =>
      if shouldRethrowImmediately e then (st1, ⟨.error e, [], 1⟩)
      else
        let rest := gatewayRun call st1 (first + 1) r (delay * (3 / 2))
        (rest.1, ⟨rest.2.result, delay :: rest.2.delays, rest.2.attempts + 1⟩)

/-- The `User` type of the auth context (AuthContext.tsx). -/
structure AuthUser where
  id : String
  name : String
  email : String
  role : String
  phone : Option String
deriving DecidableEq, Repr

/-- The auth context state: `user` (the session) and `loading`
(true until the startup check completes). -/
structure AuthState where
  user : Option AuthUser
  loading : Bool
deriving DecidableEq, Repr

/-- The part of a `GET /auth/me` body the startup effect reads:
`response.data?.user` (the `data` wrapper may be absent, and may or may
not carry a user). -/
structure MeData where
  user : Option AuthUser
deriving DecidableEq, Repr

/-- Body returned by `authService.getCurrentUser` (it returns the raw
axios `response.data`). -/
structure MeBody where
  data : Option MeData
deriving DecidableEq, Repr

/-- The wrapper object whose `user` field `AuthProvider`'s `login` reads
(`response.data.user` of the body returned by `authService.login`). -/
structure LoginData where
  user : Option AuthUser
deriving DecidableEq, Repr

/-- Body returned by the credential exchange: the `token` field that
`authService.login` stores, and the `data` wrapper whose `user` the
auth context reads. -/
structure LoginBody where
  token : Option String
  data : Option LoginData
deriving DecidableEq, Repr

namespace authService

/-- `authService.login` (services/api.ts lines 88-104): awaits the
credential exchange; on a successful response with a truthy `token`
field stores it as the `auth_token` cookie with a 30-day expiry and
returns the body; every failure is re-thrown unchanged (both arms of
the source's catch rethrow).  The JS truthiness test `if
(response.data.token)` is false for an absent token and for `""`. -/
def login (store : Option StoredToken) (exchange : Except ApiError LoginBody) :
    Option StoredToken × Except ApiError LoginBody :=
  match exchange with
  | .ok body =>
    match body.token with
    | some t => if t = "" then (store, .ok body) else (some ⟨t, 30⟩, .ok body)
    | none => (store, .ok body)
  | .error e => (store, .error e)

end authService

namespace AuthProvider

/-- The mount effect of `AuthProvider` (AuthContext.tsx lines 45-67):
read the cookie; with no token stop with `loading = false` and no
network call; otherwise fetch the current user, set the user only when
`response.data?.user` is present, swallow every fetch failure, and set
`loading = false` in the `finally`.  The returned flag records whether
the network call was made; totality of the definition reflects that the
effect never throws to its caller. -/
def loadUser (token : Option StoredToken) (fetch : Except ApiError MeBody) :
    AuthState × Bool :=
  match token with
  | none => (⟨none, false⟩, false)
  | some _ =>
    match fetch with
    | .ok body =>
      match body.data with
      | some d => (⟨d.user, false⟩, true)
      | none => (⟨none, false⟩, true)
    | .error _ => (⟨none, false⟩, true)

/-- The `login` function of `AuthProvider` (AuthContext.tsx lines
70-90) composed with `authService.login`: on success it sets the user
from `response.data.user` and resolves; on failure it toasts, re-throws
the error, and leaves the user unchanged; `setLoading(false)` runs in
the `finally`.  When the body lacks the `data` wrapper the JS property
access `response.data.user` itself throws a `TypeError`, which the same
catch block re-throws — modelled by `.error .other`. -/
def login (st : AuthState) (store : Option StoredToken)
    (exchange : Except ApiError LoginBody) :
    AuthState × Option StoredToken × Except ApiError Unit :=
  let svc := authService.login store exchange
  match svc.2 with
  | .ok body =>
    match body.data with
    | some d => (⟨d.user, false⟩, svc.1, .ok ())
    | none => (⟨st.user, false⟩, svc.1, .error .other)
  | .error e => (⟨st.user, false⟩, svc.1, .error e)

end AuthProvider

/-- What the `ProtectedRoute` component returned by `withAuth` renders. -/
inductive GuardRender where
  | loadingIndicator
  | protectedContent
  | nullContent
deriving DecidableEq, Repr

namespace ProtectedRoute

/-- The render function of the component returned by `withAuth`
(AuthContext.tsx lines 158-175): the loading placeholder while
`loading`, otherwise the wrapped component when authenticated and
`null` when not. -/
def render (loading isAuthenticated : Bool) : GuardRender :=
  if loading then .loadingIndicator
  else if isAuthenticated then .protectedContent
  else .nullContent

/-- The effect of the same component: `router.replace('/login')` fires
exactly when `!loading && !isAuthenticated`. -/
def redirectsToLogin (loading isAuthenticated : Bool) : Bool :=
  !loading && !isAuthenticated

end ProtectedRoute

namespace NewBookingPage

/-- The message toasted by the `handleSubmit` catch of the routed
new-booking page (part_005 lines 84-101):
`error.response?.data?.message || 'Failed to create booking'`.
`HttpResponse.message` stands for `response.data?.message`; the JS `||`
falls through to the generic text for an absent and for an empty
message. -/
def errorToast (e : ApiError) : String :=
  match e with
  | .axios (some r) =>
    match r.message with
    | some m => if m = "" then "Failed to create booking" else m
    | none => "Failed to create booking"
  | _ => "Failed to create booking"

/-- The message toasted by the `handleSubmit` catch of the legacy
new-booking page in the unrouted `app(unused)` tree (part_001 lines
53-98): a fixed generic text, independent of the server's message. -/
def legacyErrorToast (_ : ApiError) : String :=
  "Failed to create booking. Please try again."

end NewBookingPage

/-- The `User` row type of the admin user-management page (part_006):
`_id` is always a string (possibly empty), `id` optional. -/
structure AdminUser where
  _id : String
  id : Option String
  name : String
  email : String
  phone : Option String
  role : String
  createdAt : String
deriving DecidableEq, Repr

/-- `String(userId).trim()` of the source: strip leading and trailing
whitespace (an executable model of the JS trim). -/
def jsTrim (s : String) : String :=
  ⟨((s.toList.dropWhile Char.isWhitespace).reverse.dropWhile Char.isWhitespace).reverse⟩

/-- `userToDelete._id || userToDelete.id` with JS truthiness: the empty
`_id` falls through to `id`. -/
def jsUserId (u : AdminUser) : Option String :=
  if u._id = "" then u.id else some u._id

/-- The identifier after `if (userId) userId = String(userId).trim()`:
only a truthy (non-empty) identifier is trimmed. -/
def trimmedUserId (u : AdminUser) : Option String :=
  match jsUserId u with
  | some s => if s = "" then some s else some (jsTrim s)
  | none => none

namespace usersAdminService

/-- `usersAdminService.deleteUser` (services/api.ts lines 248-274):
throws `Error('User ID is required')` for a falsy id, otherwise issues
the DELETE request and re-throws any failure unchanged. -/
def deleteUser (userId : String) (server : Except ApiError Unit) :
    Except ApiError Unit :=
  if userId = "" then .error .other else server

end usersAdminService

/-- The toast chosen by the catch of `handleDeleteUser` (part_006 lines
613-622).  The final arm of the source interpolates `error.message`
into a template; the constant text stands for that templated
message. -/
def deleteErrorToast (e : ApiError) : String :=
  match e with
  | .axios (some r) =>
    if r.status = 404 then "User not found"
    else if r.status = 403 then "You do not have permission to delete this user"
    else if r.status = 400 then "Cannot delete admin account"
    else "Failed to revoke user access"
  | _ => "Failed to revoke user access"

/-- The observable outcome of one `handleDeleteUser` run: the users
list afterwards, whether a DELETE request was issued, and the error
toast shown (if any). -/
structure DeleteOutcome where
  users : List AdminUser
  requestSent : Bool
  errorToast : Option String
deriving DecidableEq, Repr

namespace ProfilePage

/-- `handleDeleteUser` of the admin user-management page (part_006
lines 573-626): bail out without a request when nothing is selected,
when the selected identifier is falsy after the `_id || id` fallback
and trim, or when it equals the logged-in user's own `id`
(`userId === user?.id`); otherwise call
`usersAdminService.deleteUser` and, on success, drop the matching rows
(`filter(u => (u._id || u.id) !== userId)`). -/
def handleDeleteUser (users : List AdminUser) (userToDelete : Option AdminUser)
    (currentUser : Option AuthUser) (server : Except ApiError Unit) :
    DeleteOutcome :=
  match userToDelete with
  | none => ⟨users, false, none⟩
  | some sel =>
    match trimmedUserId sel with
    | none => ⟨users, false, some "Invalid user ID"⟩
    | some uid =>
      if uid = "" then ⟨users, false, some "Invalid user ID"⟩
      else if currentUser.map AuthUser.id = some uid then
        ⟨users, false, some "You cannot delete your own admin account"⟩
      else
        match usersAdminService.deleteUser uid server with
        | .ok _ => ⟨users.filter (fun u => jsUserId u != some uid), true, none⟩
        | .error e => ⟨users, true, some (deleteErrorToast e)⟩

end ProfilePage

/-- A wrapped call that fails with a network error on every attempt;
used to exercise the retry wrapper at a concrete input. -/
def networkFailingCall : Nat → Except ApiError Nat :=
  fun _ => .error (.axios none)

/-! ## General facts about `withRetry` -/

/-- The retry guard passes (the error is not re-thrown at once) exactly
for a network error or an HTTP 500 response. -/
theorem shouldRethrow_eq_false_iff (e : ApiError) :
    shouldRethrowImmediately e = false ↔
      e = .axios none ∨ ∃ r, e = .axios (some r) ∧ r.status = 500 := by
  cases e with
  | axios r =>
    cases r with
    | none => simp [shouldRethrowImmediately, ApiError.isAxiosError, ApiError.response]
    | some resp =>
      simp [shouldRethrowImmediately, ApiError.isAxiosError, ApiError.response]
  | other => simp [shouldRethrowImmediately, ApiError.isAxiosError, ApiError.response]

/-- A first attempt that succeeds ends the run at once. -/
theorem withRetry_ok {α : Type} (call : Nat → Except ApiError α)
    (first retries : Nat) (delay : ℚ) {v : α} (h : call first = .ok v) :
    withRetry call first retries delay = ⟨.ok v, [], 1⟩ := by
  rw [withRetry, h]

/-- An exhausted budget re-throws the error of the present attempt. -/
theorem withRetry_exhausted {α : Type} (call : Nat → Except ApiError α)
    (first : Nat) (delay : ℚ) {e : ApiError} (h : call first = .error e) :
    withRetry call first 0 delay = ⟨.error e, [], 1⟩ := by
  rw [withRetry, h]

/-- An error the guard re-throws ends the run at once, whatever the
remaining budget. -/
theorem withRetry_rethrow {α : Type} (call : Nat → Except ApiError α)
    (first retries : Nat) (delay : ℚ) {e : ApiError} (h : call first = .error e)
    (he : shouldRethrowImmediately e = true) :
    withRetry call first retries delay = ⟨.error e, [], 1⟩ := by
  cases retries with
  | zero => exact withRetry_exhausted call first delay h
  | succ r => rw [withRetry, h]; simp [he]

/-- A transient error with budget remaining sleeps `delay` and recurses
with a 1.5-times larger delay. -/
theorem withRetry_retry {α : Type} (call : Nat → Except ApiError α)
    (first r : Nat) (delay : ℚ) {e : ApiError} (h : call first = .error e)
    (he : shouldRethrowImmediately e = false) :
    withRetry call first (r + 1) delay =
      ⟨(withRetry call (first + 1) r (delay * (3 / 2))).result,
        delay :: (withRetry call (first + 1) r (delay * (3 / 2))).delays,
        (withRetry call (first + 1) r (delay * (3 / 2))).attempts + 1⟩ := by
  rw [withRetry, h]; simp [he]

/-- Every run makes at least one attempt. -/
theorem withRetry_attempts_pos {α : Type} (call : Nat → Except ApiError α)
    (first retries : Nat) (delay : ℚ) :
    1 ≤ (withRetry call first retries delay).attempts := by
  induction retries generalizing first delay with
  | zero =>
    cases h : call first with
    | ok v => rw [withRetry_ok call first 0 delay h]
    | error e => rw [withRetry_exhausted call first delay h]
  | succ r ih =>
    cases h : call first with
    | ok v => rw [withRetry_ok call first (r + 1) delay h]
    | error e =>
      by_cases he : shouldRethrowImmediately e
      · rw [withRetry_rethrow call first (r + 1) delay h he]
      · rw [withRetry_retry call first r delay h (by simpa using he)]
        exact Nat.le_add_left 1 _

/-- The attempt count never exceeds the budget plus one. -/
theorem withRetry_attempts_le {α : Type} (call : Nat → Except ApiError α)
    (first retries : Nat) (delay : ℚ) :
    (withRetry call first retries delay).attempts ≤ retries + 1 := by
  induction retries generalizing first delay with
  | zero =>
    cases h : call first with
    | ok v => rw [withRetry_ok call first 0 delay h]
    | error e => rw [withRetry_exhausted call first delay h]
  | succ r ih =>
    cases h : call first with
    | ok v => rw [withRetry_ok call first (r + 1) delay h]; dsimp only; omega
    | error e =>
      by_cases he : shouldRethrowImmediately e
      · rw [withRetry_rethrow call first (r + 1) delay h he]; dsimp only; omega
      · rw [withRetry_retry call first r delay h (by simpa using he)]
        have := ih (first + 1) (delay * (3 / 2))
        simpa using Nat.add_le_add_right this 1

/-- An error outcome is the error of the last attempt, unchanged. -/
theorem withRetry_error_last {α : Type} (call : Nat → Except ApiError α)
    (first retries : Nat) (delay : ℚ) {e : ApiError}
    (hres : (withRetry call first retries delay).result = .error e) :
    call (first + ((withRetry call first retries delay).attempts - 1)) = .error e := by
  induction retries generalizing first delay with
  | zero =>
    cases h : call first with
    | ok v => rw [withRetry_ok call first 0 delay h] at hres; simp at hres
    | error e2 =>
      rw [withRetry_exhausted call first delay h] at hres ⊢
      simp only at hres ⊢
      cases hres
      simpa using h
  | succ r ih =>
    cases h : call first with
    | ok v => rw [withRetry_ok call first (r + 1) delay h] at hres; simp at hres
    | error e2 =>
      by_cases he : shouldRethrowImmediately e2
      · rw [withRetry_rethrow call first (r + 1) delay h he] at hres ⊢
        simp only at hres ⊢
        cases hres
        simpa using h
      · rw [withRetry_retry call first r delay h (by simpa using he)] at hres ⊢
        simp only at hres ⊢
        have hpos := withRetry_attempts_pos call (first + 1) r (delay * (3 / 2))
        have hrec := ih (first + 1) (delay * (3 / 2)) hres
        have hidx : first + ((withRetry call (first + 1) r (delay * (3 / 2))).attempts + 1 - 1) =
            first + 1 + ((withRetry call (first + 1) r (delay * (3 / 2))).attempts - 1) := by
          omega
        rw [hidx]
        exact hrec

/-- One delay is slept before every attempt after the first, and none
before the first attempt. -/
theorem withRetry_delays_len {α : Type} (call : Nat → Except ApiError α)
    (first retries : Nat) (delay : ℚ) :
    (withRetry call first retries delay).delays.length + 1 =
      (withRetry call first retries delay).attempts := by
  induction retries generalizing first delay with
  | zero =>
    cases h : call first with
    | ok v => rw [withRetry_ok call first 0 delay h]; rfl
    | error e => rw [withRetry_exhausted call first delay h]; rfl
  | succ r ih =>
    cases h : call first with
    | ok v => rw [withRetry_ok call first (r + 1) delay h]; rfl
    | error e =>
      by_cases he : shouldRethrowImmediately e
      · rw [withRetry_rethrow call first (r + 1) delay h he]; rfl
      · rw [withRetry_retry call first r delay h (by simpa using he)]
        have := ih (first + 1) (delay * (3 / 2))
        simp only [List.length_cons]
        omega


/-- The delay slept before the (k+1)-st retry is the initial delay
multiplied by (3/2)^k. -/
theorem withRetry_delays_getD {α : Type} (call : Nat → Except ApiError α)
    (first retries : Nat) (delay : ℚ) :
    ∀ k : Nat, k < (withRetry call first retries delay).delays.length →
      (withRetry call first retries delay).delays.getD k 0 = delay * (3 / 2) ^ k := by
  induction retries generalizing first delay with
  | zero =>
    intro k hk
    cases h : call first with
    | ok v => rw [withRetry_ok call first 0 delay h] at hk; simp at hk
    | error e => rw [withRetry_exhausted call first delay h] at hk; simp at hk
  | succ r ih =>
    intro k hk
    cases h : call first with
    | ok v => rw [withRetry_ok call first (r + 1) delay h] at hk; simp at hk
    | error e =>
      by_cases he : shouldRethrowImmediately e
      · rw [withRetry_rethrow call first (r + 1) delay h he] at hk; simp at hk
      · rw [withRetry_retry call first r delay h (by simpa using he)] at hk ⊢
        simp only [List.length_cons] at hk
        cases k with
        | zero => simp
        | succ k2 =>
          simp only [List.getD_cons_succ]
          have hk2 : k2 < (withRetry call (first + 1) r (delay * (3 / 2))).delays.length := by
            omega
          rw [ih (first + 1) (delay * (3 / 2)) k2 hk2]
          ring

/-- Concrete evaluation of the default retry wrapper on a call failing
with a network error on every attempt: three attempts, delays 1000 and
1500 ms, the last error re-thrown. -/
theorem networkFailingCall_trace :
    withRetryDefault networkFailingCall = ⟨.error (.axios none), [1000, 1500], 3⟩ := by
  norm_num [withRetryDefault, withRetry, networkFailingCall, shouldRethrowImmediately,
    ApiError.isAxiosError, ApiError.response]

/-- C1: the retry helper retries only when the failure is a network
error (no response) or an HTTP 500; an error carrying a response with
any other status (401, any 4xx, ...) is re-thrown immediately, with no
retry attempt, no delay, and exactly one invocation of the wrapped
call. -/
theorem claim_C1 {α : Type} (call : Nat → Except ApiError α)
    (first retries : Nat) (delay : ℚ) :
    (∀ r : HttpResponse, call first = .error (.axios (some r)) → r.status ≠ 500 →
        withRetry call first retries delay = ⟨.error (.axios (some r)), [], 1⟩) ∧
    (1 < (withRetry call first retries delay).attempts →
      ∃ e, call first = .error e ∧
        (e = .axios none ∨ ∃ r, e = .axios (some r) ∧ r.status = 500)) := by
  constructor
  · intro r h hs
    apply withRetry_rethrow call first retries delay h
    simp [shouldRethrowImmediately, ApiError.isAxiosError, ApiError.response, hs]
  · intro hgt
    cases h : call first with
    | ok v =>
      rw [withRetry_ok call first retries delay h] at hgt
      simp at hgt
    | error e =>
      by_cases he : shouldRethrowImmediately e
      · rw [withRetry_rethrow call first retries delay h he] at hgt
        simp at hgt
      · exact ⟨e, rfl, (shouldRethrow_eq_false_iff e).1 (by simpa using he)⟩

/-- Witness for C1 at a call that always fails with HTTP 401: the
error is re-thrown at once, no retry happens. -/
theorem claim_C1_witness :
    withRetry (fun _ => (.error (.axios (some ⟨401, none⟩)) : Except ApiError Nat))
        0 2 1000 = ⟨.error (.axios (some ⟨401, none⟩)), [], 1⟩ :=
  (claim_C1 (fun _ => .error (.axios (some ⟨401, none⟩))) 0 2 1000).1
    ⟨401, none⟩ rfl (by decide)

/-- C2: with the default budget the wrapped call is invoked at most 3
times (1 initial + 2 retries), and an error outcome is exactly the
error thrown by the last attempt, unchanged. -/
theorem claim_C2 {α : Type} (call : Nat → Except ApiError α) :
    (withRetryDefault call).attempts ≤ 3 ∧
    ∀ e : ApiError, (withRetryDefault call).result = .error e →
      call ((withRetryDefault call).attempts - 1) = .error e := by
  constructor
  · simpa [withRetryDefault] using withRetry_attempts_le call 0 2 1000
  · intro e hres
    have := withRetry_error_last call 0 2 1000 (e := e) (by simpa [withRetryDefault] using hres)
    simpa [withRetryDefault] using this

/-- Witness for C2 at a call failing with a network error on every
attempt: 3 attempts are used and the error of attempt index 2 (the
third and last) is the one re-thrown. -/
theorem claim_C2_witness :
    (withRetryDefault networkFailingCall).attempts ≤ 3 ∧
    networkFailingCall ((withRetryDefault networkFailingCall).attempts - 1) =
      .error (.axios none) :=
  ⟨(claim_C2 networkFailingCall).1,
    (claim_C2 networkFailingCall).2 (.axios none) (by rw [networkFailingCall_trace])⟩

/-- C3: with the default arguments the delay slept before the k-th
retry (k = 1, 2, ...) is 1000 ms times (3/2)^(k-1) (list index k-1),
the factor 3/2 is strictly greater than 1, and there is no delay before
the first attempt (there is exactly one delay per attempt after the
first). -/
theorem claim_C3 {α : Type} (call : Nat → Except ApiError α) :
    (1 : ℚ) < 3 / 2 ∧
    (withRetryDefault call).delays.length + 1 = (withRetryDefault call).attempts ∧
    ∀ k : Nat, k < (withRetryDefault call).delays.length →
      (withRetryDefault call).delays.getD k 0 = 1000 * (3 / 2) ^ k :=
  ⟨by norm_num, withRetry_delays_len call 0 2 1000, withRetry_delays_getD call 0 2 1000⟩

/-- Witness for C3: on the always-network-failing call the delay before
the second retry is 1000 * (3/2) = 1500 ms. -/
theorem claim_C3_witness :
    (withRetryDefault networkFailingCall).delays.getD 1 0 = 1000 * (3 / 2) ^ 1 :=
  (claim_C3 networkFailingCall).2.2 1 (by rw [networkFailingCall_trace]; norm_num)

/-- C4: for every combination of (loading, isAuthenticated) the route
guard never renders the wrapped protected content while loading is true
or while isAuthenticated is false; it renders the loading placeholder
while loading, and when loading is false and isAuthenticated is false
it renders null and fires the redirect to the login entry point. -/
theorem claim_C4 :
    ∀ loading isAuthenticated : Bool,
      ((loading = true ∨ isAuthenticated = false) →
        ProtectedRoute.render loading isAuthenticated ≠ .protectedContent) ∧
      (loading = true →
        ProtectedRoute.render loading isAuthenticated = .loadingIndicator) ∧
      (loading = false → isAuthenticated = false →
        ProtectedRoute.render loading isAuthenticated = .nullContent ∧
        ProtectedRoute.redirectsToLogin loading isAuthenticated = true) := by
  decide

/-- Witness for C4 at concrete guard inputs: loading renders the
placeholder, and an unauthenticated settled state renders null and
redirects. -/
theorem claim_C4_witness :
    ProtectedRoute.render true false = .loadingIndicator ∧
    ProtectedRoute.render false false = .nullContent ∧
    ProtectedRoute.redirectsToLogin false false = true :=
  ⟨(claim_C4 true false).2.1 rfl, ((claim_C4 false false).2.2 rfl rfl).1,
    ((claim_C4 false false).2.2 rfl rfl).2⟩

/-- C5: a startup run with a stored token whose current-user fetch
fails ends with no session, loading false and no exception (the
definition is total and returns a plain state); a startup run with no
stored token makes no network call and ends with loading false and no
session. -/
theorem claim_C5 :
    (∀ (t : StoredToken) (e : ApiError),
      AuthProvider.loadUser (some t) (.error e) = (⟨none, false⟩, true)) ∧
    (∀ fetch : Except ApiError MeBody,
      AuthProvider.loadUser none fetch = (⟨none, false⟩, false)) :=
  ⟨fun _ _ => rfl, fun _ => rfl⟩

/-- C6: a successful login whose body carries a non-empty token and a
user record sets the session to that user, stores the token as the
auth_token cookie with a 30-day expiry, and leaves the stored token
non-empty. -/
theorem claim_C6 (st : AuthState) (store : Option StoredToken)
    (body : LoginBody) (t : String) (u : AuthUser)
    (htok : body.token = some t) (ht : t ≠ "")
    (hdata : body.data = some ⟨some u⟩) :
    AuthProvider.login st store (.ok body) =
      (⟨some u, false⟩, some ⟨t, 30⟩, .ok ()) ∧
    (⟨t, 30⟩ : StoredToken).value ≠ "" := by
  cases body with
  | mk tok dat =>
    simp only at htok hdata
    cases htok
    cases hdata
    refine ⟨?_, ht⟩
    simp [AuthProvider.login, authService.login, ht]

/-- Witness for C6 at a concrete successful exchange. -/
theorem claim_C6_witness :
    AuthProvider.login ⟨none, true⟩ none
        (.ok ⟨some "tok", some ⟨some ⟨"1", "Ada", "a@b.c", "admin", none⟩⟩⟩) =
      (⟨some ⟨"1", "Ada", "a@b.c", "admin", none⟩, false⟩, some ⟨"tok", 30⟩, .ok ()) ∧
    (⟨"tok", 30⟩ : StoredToken).value ≠ "" :=
  claim_C6 ⟨none, true⟩ none ⟨some "tok", some ⟨some ⟨"1", "Ada", "a@b.c", "admin", none⟩⟩⟩
    "tok" ⟨"1", "Ada", "a@b.c", "admin", none⟩ rfl (by decide) rfl

/-- C7: a failed login leaves the session unchanged, writes no token
(the store is returned as it was), and re-throws the same error to the
caller. -/
theorem claim_C7 (st : AuthState) (store : Option StoredToken) (e : ApiError) :
    AuthProvider.login st store (.error e) = (⟨st.user, false⟩, store, .error e) :=
  rfl

/-- An error the retry guard re-throws ends a gateway run at once: the
interceptor fires exactly once and the error is re-thrown, whatever the
remaining budget. -/
theorem gatewayRun_rethrow {α : Type} (call : Nat → Except ApiError α)
    (st : GwState) (first retries : Nat) (delay : ℚ) {e : ApiError}
    (h : call first = .error e) (he : shouldRethrowImmediately e = true) :
    gatewayRun call st first retries delay = (interceptError st e, ⟨.error e, [], 1⟩) := by
  cases retries with
  | zero => rw [gatewayRun, h]
  | succ r => rw [gatewayRun, h]; simp [he]

/-- C8: a 401 response makes the interceptor clear the stored token
(exactly one clear is recorded) and, when the current pathname is not a
login/register page, force-navigate to the login entry point (and not
navigate when it already is one); and a wrapped call that always
returns 401 ends after a single attempt — no retry — so the token is
cleared exactly once. -/
theorem claim_C8 :
    (∀ (st : GwState) (r : HttpResponse), r.status = 401 →
      (interceptError st (.axios (some r))).token = none ∧
      (interceptError st (.axios (some r))).tokenClears = st.tokenClears + 1 ∧
      (isAuthPath st.pathname = false →
        (interceptError st (.axios (some r))).navigations = st.navigations ++ ["/login"]) ∧
      (isAuthPath st.pathname = true →
        (interceptError st (.axios (some r))).navigations = st.navigations)) ∧
    (∀ (st : GwState) (r : HttpResponse) (first retries : Nat) (delay : ℚ),
      r.status = 401 →
      gatewayRun (fun _ => (.error (.axios (some r)) : Except ApiError Unit))
          st first retries delay =
        (interceptError st (.axios (some r)), ⟨.error (.axios (some r)), [], 1⟩)) := by
  constructor
  · intro st r h401
    by_cases hp : isAuthPath st.pathname <;>
      simp [interceptError, h401, hp]
  · intro st r first retries delay h401
    apply gatewayRun_rethrow _ _ _ _ _ rfl
    simp [shouldRethrowImmediately, ApiError.isAxiosError, ApiError.response, h401]

/-- Witness for C8: a concrete 401 on the dashboard page clears the
token once and the wrapper makes exactly one attempt. -/
theorem claim_C8_witness :
    (interceptError ⟨some ⟨"tok", 30⟩, "/dashboard", 0, []⟩
        (.axios (some ⟨401, none⟩))).token = none ∧
    (interceptError ⟨some ⟨"tok", 30⟩, "/dashboard", 0, []⟩
        (.axios (some ⟨401, none⟩))).tokenClears = 1 ∧
    gatewayRun (fun _ => (.error (.axios (some ⟨401, none⟩)) : Except ApiError Unit))
        ⟨some ⟨"tok", 30⟩, "/dashboard", 0, []⟩ 0 2 1000 =
      (interceptError ⟨some ⟨"tok", 30⟩, "/dashboard", 0, []⟩ (.axios (some ⟨401, none⟩)),
        ⟨.error (.axios (some ⟨401, none⟩)), [], 1⟩) :=
  ⟨(claim_C8.1 ⟨some ⟨"tok", 30⟩, "/dashboard", 0, []⟩ ⟨401, none⟩ rfl).1,
    (claim_C8.1 ⟨some ⟨"tok", 30⟩, "/dashboard", 0, []⟩ ⟨401, none⟩ rfl).2.1,
    claim_C8.2 ⟨some ⟨"tok", 30⟩, "/dashboard", 0, []⟩ ⟨401, none⟩ 0 2 1000 rfl⟩

/-- C9 counterexample: a 400 response whose body carries the message
field with the empty string — a present server-provided message — is
not surfaced verbatim by the new-booking submit handler: the generic
fallback is shown instead (the JS `||` treats the empty message as
falsy). -/
theorem claim_C9_counterexample :
    (400 : Nat) ≠ 401 ∧
    (⟨400, some ""⟩ : HttpResponse).message = some "" ∧
    NewBookingPage.errorToast (.axios (some ⟨400, some ""⟩)) = "Failed to create booking" ∧
    NewBookingPage.errorToast (.axios (some ⟨400, some ""⟩)) ≠ "" := by
  refine ⟨by decide, rfl, rfl, by decide⟩

/-- C9 (amended): a call failing with HTTP 400 and body message
"Invalid date" surfaces exactly "Invalid date"; and for any 4xx
response other than 401 the routed new-booking submit handler surfaces
a present non-empty server message verbatim, while an absent or empty
message yields the generic fallback. -/
theorem claim_C9 :
    NewBookingPage.errorToast (.axios (some ⟨400, some "Invalid date"⟩)) = "Invalid date" ∧
    ∀ r : HttpResponse, 400 ≤ r.status → r.status < 500 → r.status ≠ 401 →
      (∀ m : String, r.message = some m → m ≠ "" →
        NewBookingPage.errorToast (.axios (some r)) = m) ∧
      (r.message = none →
        NewBookingPage.errorToast (.axios (some r)) = "Failed to create booking") ∧
      (r.message = some "" →
        NewBookingPage.errorToast (.axios (some r)) = "Failed to create booking") := by
  refine ⟨rfl, ?_⟩
  intro r _ _ _
  refine ⟨?_, ?_, ?_⟩
  · intro m hm hne
    simp [NewBookingPage.errorToast, hm, hne]
  · intro hm
    simp [NewBookingPage.errorToast, hm]
  · intro hm
    simp [NewBookingPage.errorToast, hm]

/-- Witness for C9 at a concrete 404 with a non-empty message. -/
theorem claim_C9_witness :
    NewBookingPage.errorToast (.axios (some ⟨404, some "Nope"⟩)) = "Nope" :=
  (claim_C9.2 ⟨404, some "Nope"⟩ (by decide) (by decide) (by decide)).1
    "Nope" rfl (by decide)

/-- C10: when the selected user's effective identifier equals the
logged-in user's own id, or when it is missing or empty, the
delete-user handler sends no request to the server, leaves the
displayed users list unchanged, and shows an error message. -/
theorem claim_C10 (users : List AdminUser) (sel : AdminUser)
    (cur : Option AuthUser) (server : Except ApiError Unit) :
    (∀ aid : String, cur.map AuthUser.id = some aid → trimmedUserId sel = some aid →
      (ProfilePage.handleDeleteUser users (some sel) cur server).users = users ∧
      (ProfilePage.handleDeleteUser users (some sel) cur server).requestSent = false ∧
      (ProfilePage.handleDeleteUser users (some sel) cur server).errorToast ≠ none) ∧
    (trimmedUserId sel = none ∨ trimmedUserId sel = some "" →
      (ProfilePage.handleDeleteUser users (some sel) cur server).users = users ∧
      (ProfilePage.handleDeleteUser users (some sel) cur server).requestSent = false ∧
      (ProfilePage.handleDeleteUser users (some sel) cur server).errorToast ≠ none) := by
  constructor
  · intro aid hcur htrim
    by_cases hempty : aid = ""
    · subst hempty
      simp [ProfilePage.handleDeleteUser, htrim]
    · simp [ProfilePage.handleDeleteUser, htrim, hempty, hcur]
  · intro hdisj
    rcases hdisj with hnone | hempty
    · simp [ProfilePage.handleDeleteUser, hnone]
    · simp [ProfilePage.handleDeleteUser, hempty]

/-- Witness for C10: an admin selecting their own row (matching id) —
no request is sent, the list is unchanged, an error toast is shown. -/
theorem claim_C10_witness :
    (ProfilePage.handleDeleteUser
        [⟨"u1", none, "Bob", "b@x.c", none, "customer", "2024-01-01"⟩]
        (some ⟨"u1", none, "Bob", "b@x.c", none, "customer", "2024-01-01"⟩)
        (some ⟨"u1", "Admin", "a@x.c", "admin", none⟩) (.ok ())).users =
      [⟨"u1", none, "Bob", "b@x.c", none, "customer", "2024-01-01"⟩] ∧
    (ProfilePage.handleDeleteUser
        [⟨"u1", none, "Bob", "b@x.c", none, "customer", "2024-01-01"⟩]
        (some ⟨"u1", none, "Bob", "b@x.c", none, "customer", "2024-01-01"⟩)
        (some ⟨"u1", "Admin", "a@x.c", "admin", none⟩) (.ok ())).requestSent = false ∧
    (ProfilePage.handleDeleteUser
        [⟨"u1", none, "Bob", "b@x.c", none, "customer", "2024-01-01"⟩]
        (some ⟨"u1", none, "Bob", "b@x.c", none, "customer", "2024-01-01"⟩)
        (some ⟨"u1", "Admin", "a@x.c", "admin", none⟩) (.ok ())).errorToast ≠ none :=
  (claim_C10 [⟨"u1", none, "Bob", "b@x.c", none, "customer", "2024-01-01"⟩]
      ⟨"u1", none, "Bob", "b@x.c", none, "customer", "2024-01-01"⟩
      (some ⟨"u1", "Admin", "a@x.c", "admin", none⟩) (.ok ())).1
    "u1" rfl (by decide)
